import Mathlib

/-!
Shallow embedding of the GNU C/C++ makefile generator `gnu_cpp.c` of the
premake build-script tool.  Emission is modelled as pure string building:
the output sink (`io_print`) becomes string concatenation, the hidden
selected-configuration cursor becomes an explicit `Config` argument, and
the external project-model accessors (`prj_*`) become fields of explicit
structures.  External helpers that live outside the given source file
(`matches`, the `path_*` utilities, `is_cpp`, `print_list`) are modelled
from the spec, as indicated on each definition.
-/

namespace Premake

/-- One build configuration of a package: its name and the per-configuration
data read through `prj_get_cfgname`, `prj_get_bindir`, `prj_get_libdir`,
`prj_get_objdir`, `prj_get_outdir`, `prj_get_defines`, `prj_get_incpaths`,
`prj_has_flag`, `prj_get_buildoptions`, `prj_get_linkoptions`,
`prj_get_libpaths` and `prj_get_target` while that configuration is
selected. -/
structure Config where
  name : String
  bindir : String
  libdir : String
  objdir : String
  outdir : String
  defines : List String
  incpaths : List String
  flags : List String
  buildoptions : List String
  linkoptions : List String
  libpaths : List String
  target : String

/-- The package currently being emitted: name, source language, kind string,
ordered configurations, ordered source files, ordered link references, and
the cxxtest generator settings. -/
structure Package where
  pkgname : String
  lang : String
  kind : String
  configs : List Config
  files : List String
  links : List String
  cxxtestpath : String
  cxxtest_rootoptions : String
  cxxtest_rootfile : String
  cxxtest_options : String

/-- A sibling package as seen by the dependency resolver through
`prj_find_package`, `prj_get_language_for`, `prj_get_config_for(i)->kind`
and `prj_get_target_for`. -/
structure Sibling where
  name : String
  lang : String
  kind : String
  target : String

/-- The project graph the dependency resolver searches. -/
structure Project where
  packages : List Sibling

/-- Platform context: OS identity (`os_is`), toolchain identity `g_cc`
(possibly unset, as the C global may be NULL) and the verbosity flag
`g_verbose`. -/
structure Ctx where
  os : String
  g_cc : Option String
  g_verbose : Bool

/-- Modelled from the spec: the external string helper `matches` (exact
string comparison), lifted to the possibly-NULL `g_cc`; a NULL first
argument matches nothing. -/
def matchesOpt : Option String → String → Bool
  | none, _ => false
  | some s, t => s == t

/-- The file part of a path: everything after the last slash. -/
def afterLastSlash (s : String) : String := (s.splitOn "/").getLastD s

/-- Modelled from the spec: external path utility `path_getextension` -
the final extension of the file part of the path, dot included, empty when
the file part has no dot. -/
def path_getextension (s : String) : String :=
  let base := afterLastSlash s
  let parts := base.splitOn "."
  if parts.length ≤ 1 then "" else "." ++ parts.getLastD ""

/-- Modelled from the spec: external path utility `path_getbasename` - the
file part of the path without its extension. -/
def path_getbasename (s : String) : String :=
  let base := afterLastSlash s
  let parts := base.splitOn "."
  if parts.length ≤ 1 then base else String.intercalate "." parts.dropLast

/-- Modelled from the spec: external path utility `path_getname` - the file
part of the path, extension kept. -/
def path_getname (s : String) : String := afterLastSlash s

/-- Modelled from the spec: external path utility `path_getdir` - the
directory part of the path. -/
def path_getdir (s : String) : String :=
  let parts := s.splitOn "/"
  if parts.length ≤ 1 then "" else String.intercalate "/" parts.dropLast

/-- Modelled from the spec: external path utility `path_swapextension` -
replace a trailing extension by another. -/
def path_swapextension (name oldExt newExt : String) : String :=
  if name.endsWith oldExt then name.dropRight oldExt.length ++ newExt else name

/-- Modelled from the spec: external path utility `path_translate` with a
NULL separator argument; generic path utilities are out of scope, so the
translation is taken as the identity. -/
def path_translate (s : String) : String := s

/-- Modelled from the spec: the extensions the source classifier `is_cpp`
accepts - C, C++, assembly (`.s`) and netwide-assembler (`.asm`) sources. -/
def compilableExts : List String := [".c", ".cc", ".cpp", ".cxx", ".s", ".asm"]

/-- Modelled from the spec: the external source classifier `is_cpp` - true
exactly when the extension maps to a compilable type. -/
def is_cpp (name : String) : Bool := compilableExts.contains (path_getextension name)

/-- Modelled from the spec: the external list printer `print_list` - emit
each entry the filter keeps, wrapped in the given leading and trailing
text; a NULL filter (here `some`) keeps every entry as is. -/
def print_list (xs : List String) (bef aft : String) (f : String → Option String) : String :=
  String.join ((xs.filterMap f).map (fun s => bef ++ s ++ aft))

/-- `prj_has_flag`: a named boolean flag of the selected configuration. -/
def prj_has_flag (cfg : Config) (f : String) : Bool := cfg.flags.contains f

/-- `prj_find_package`: look the name up among the project's packages. -/
def prj_find_package (proj : Project) (name : String) : Option Sibling :=
  proj.packages.find? (fun s => s.name == name)

/-- `filterLinks` (gnu_cpp.c lines 299-323): a link reference naming a
cxxtestgen sibling yields nothing, one naming a C or C++ sibling yields the
sibling's target, one naming a sibling of another language yields nothing,
and an unknown name yields the external-library token `-l` plus the name. -/
def filterLinks (proj : Project) (name : String) : Option String :=
  match prj_find_package proj name with
  | some s =>
      if s.kind == "cxxtestgen" then none
      else if s.lang == "c++" || s.lang == "c" then some s.target
      else none
  | none => some ("-l" ++ name)

/-- `listLinkerDeps` (gnu_cpp.c lines 503-516): a link reference naming a
non-cxxtestgen sibling yields that sibling's target, any other reference
yields nothing. -/
def listLinkerDeps (proj : Project) (name : String) : Option String :=
  match prj_find_package proj name with
  | some s => if s.kind == "cxxtestgen" then none else some s.target
  | none => none

/-- The optimization tokens of the CFLAGS line (gnu_cpp.c lines 97-102), in
emission order: `-Os` when optimize-size, `-O3` when optimize-speed, `-O2`
when optimize is set and neither optimize-size nor optimize-speed is. -/
def optTokens (cfg : Config) : List String :=
  (if prj_has_flag cfg "optimize-size" then ["-Os"] else []) ++
  (if prj_has_flag cfg "optimize-speed" then ["-O3"] else []) ++
  (if prj_has_flag cfg "optimize" && !prj_has_flag cfg "optimize-size"
      && !prj_has_flag cfg "optimize-speed" then ["-O2"] else [])

/-- The conditional tokens of the CFLAGS line (gnu_cpp.c lines 92-108), in
emission order. -/
def cflagsTokens (pkg : Package) (ctx : Ctx) (cfg : Config) : List String :=
  (if pkg.kind == "dll" && !(ctx.os == "windows") then ["-fPIC"] else []) ++
  (if !prj_has_flag cfg "no-symbols" then ["-g"] else []) ++
  optTokens cfg ++
  (if prj_has_flag cfg "extra-warnings" then ["-Wall"] else []) ++
  (if prj_has_flag cfg "fatal-warnings" then ["-Werror"] else []) ++
  (if prj_has_flag cfg "no-frame-pointer" then ["-fomit-frame-pointer"] else [])

/-- The CPPFLAGS line (gnu_cpp.c lines 84-89). -/
def cppflagsLine (ctx : Ctx) (cfg : Config) : String :=
  "  CPPFLAGS :=" ++
  (if !matchesOpt ctx.g_cc "dmc" then " -MD" else "") ++
  print_list cfg.defines " -D \"" "\"" some ++
  print_list cfg.incpaths " -I \"" "\"" some ++ "\n"

/-- The CFLAGS line (gnu_cpp.c lines 92-110). -/
def cflagsLine (pkg : Package) (ctx : Ctx) (cfg : Config) : String :=
  "  CFLAGS += $(CPPFLAGS)" ++
  String.join ((cflagsTokens pkg ctx cfg).map (fun t => " " ++ t)) ++
  print_list cfg.buildoptions " " "" some ++ "\n"

/-- The CXXFLAGS line (gnu_cpp.c lines 113-118). -/
def cxxflagsLine (cfg : Config) : String :=
  "  CXXFLAGS := $(CFLAGS)" ++
  (if prj_has_flag cfg "no-exceptions" then " --no-exceptions" else "") ++
  (if prj_has_flag cfg "no-rtti" then " --no-rtti" else "") ++ "\n"

/-- The LDFLAGS line (gnu_cpp.c lines 121-141). -/
def ldflagsLine (pkg : Package) (ctx : Ctx) (proj : Project) (cfg : Config) : String :=
  "  LDFLAGS += -L$(BINDIR) -L$(LIBDIR)" ++
  (if pkg.kind == "dll" && (ctx.g_cc.isNone || matchesOpt ctx.g_cc "gcc")
     then " -shared" else "") ++
  (if prj_has_flag cfg "no-symbols" then " -s" else "") ++
  (if ctx.os == "macosx" && prj_has_flag cfg "dylib"
     then " -dynamiclib -flat_namespace" else "") ++
  (if !(ctx.os == "macosx") then " -Xlinker --start-group" else "") ++
  print_list cfg.linkoptions " " "" some ++
  print_list cfg.libpaths " -L\"" "\"" some ++
  print_list pkg.links " " "" (filterLinks proj) ++
  (if !(ctx.os == "macosx") then " -Xlinker --end-group" else "") ++ "\n"

/-- The LDDEPS line (gnu_cpp.c lines 144-146). -/
def lddepsLine (pkg : Package) (proj : Project) : String :=
  "  LDDEPS :=" ++ print_list pkg.links " " "" (listLinkerDeps proj) ++ "\n"

/-- The TARGET and MACAPP lines (gnu_cpp.c lines 149-154). -/
def targetLines (pkg : Package) (ctx : Ctx) (cfg : Config) : String :=
  (if pkg.kind == "cxxtestgen" then "  TARGET := $(OBJECTS)\n"
   else "  TARGET := " ++ path_getname cfg.target ++ "\n") ++
  (if ctx.os == "macosx" && pkg.kind == "winexe"
     then "  MACAPP := " ++ path_getname cfg.target ++ ".app/Contents\n" else "")

/-- The build command assigned to BLDCMD (gnu_cpp.c lines 156-166): archive
then index for a static library, a no-op for cxxtestgen, a loop over the
link dependencies for a run target, and otherwise - any remaining kind -
the C or C++ link driver chosen by the package language. -/
def bldcmd (pkg : Package) : String :=
  if pkg.kind == "lib" then
    "ar -cr $(OUTDIR)/$(TARGET) $(OBJECTS); ranlib $(OUTDIR)/$(TARGET)"
  else if pkg.kind == "cxxtestgen" then "true"
  else if pkg.kind == "run" then
    "for a in $(LDDEPS); do echo Running $$a; $$a; done"
  else
    "$(" ++ (if pkg.lang == "c" then "CC" else "CXX") ++
      ") -o $(OUTDIR)/$(TARGET) $(OBJECTS) $(LDFLAGS) $(RESOURCES)"

/-- Body of one guarded configuration block, everything between the ifeq
guard line and its endif (gnu_cpp.c lines 78-168). -/
def configBlockBody (pkg : Package) (ctx : Ctx) (proj : Project) (cfg : Config) : String :=
  "  BINDIR := " ++ cfg.bindir ++ "\n" ++
  "  LIBDIR := " ++ cfg.libdir ++ "\n" ++
  "  OBJDIR := " ++ cfg.objdir ++ "\n" ++
  "  OUTDIR := " ++ cfg.outdir ++ "\n" ++
  cppflagsLine ctx cfg ++
  cflagsLine pkg ctx cfg ++
  cxxflagsLine cfg ++
  ldflagsLine pkg ctx proj cfg ++
  lddepsLine pkg proj ++
  targetLines pkg ctx cfg ++
  "  BLDCMD = " ++ bldcmd pkg ++ "\n" ++
  "endif\n\n"

/-- One guarded configuration block (gnu_cpp.c lines 76-168): the ifeq
guard comparing `$(CONFIG)` with this configuration's name, then the body. -/
def configBlock (pkg : Package) (ctx : Ctx) (proj : Project) (cfg : Config) : String :=
  "ifeq ($(CONFIG)," ++ cfg.name ++ ")\n" ++ configBlockBody pkg ctx proj cfg

/-- The guarded blocks, one per declared configuration, in declaration
order (the loop of gnu_cpp.c lines 72-169). -/
def configBlocksList (pkg : Package) (ctx : Ctx) (proj : Project) : List String :=
  pkg.configs.map (configBlock pkg ctx proj)

/-- The text of the configuration-blocks section. -/
def configBlocksText (pkg : Package) (ctx : Ctx) (proj : Project) : String :=
  String.join (configBlocksList pkg ctx proj)

/-- The human-readable kind label of the header comment (gnu_cpp.c lines
49-60); an unrecognized kind prints nothing. -/
def kindLabel (kind : String) : String :=
  if kind == "exe" then "Console Executable"
  else if kind == "winexe" then "Windowed Executable"
  else if kind == "dll" then "Shared Library"
  else if kind == "cxxtestgen" then "CxxTest Generator"
  else if kind == "lib" then "Static Library"
  else if kind == "run" then "Run Target"
  else ""

/-- The header comment of the makefile (gnu_cpp.c lines 47-63). -/
def headerSection (pkg : Package) : String :=
  "# " ++ (if pkg.lang == "c++" then "C++" else "C") ++ " " ++
  kindLabel pkg.kind ++
  " Makefile autogenerated by premake\n" ++
  "# Don\x27t edit this file! Instead edit \x60premake.lua\x60 then rerun \x60make\x60\n\n"

/-- The default-configuration assignment (gnu_cpp.c lines 65-69):
configuration 0 is selected and an ifndef-guarded `CONFIG=` assignment
names it.  Selecting configuration 0 of a package with no configurations
is undefined in the C source; the model reads an empty name then. -/
def defaultConfigSection (pkg : Package) : String :=
  "ifndef CONFIG\n  CONFIG=" ++ ((pkg.configs.head?.map Config.name).getD "") ++
  "\nendif\n\n"

/-- `listCppSources` (gnu_cpp.c lines 331-341): a compilable source maps to
its basename plus `.o`, anything else is skipped. -/
def listCppSources (name : String) : Option String :=
  if is_cpp name then some (path_getbasename name ++ ".o") else none

/-- `listCxxTestSources` (gnu_cpp.c lines 344-352): a `.h` source maps to
the companion `.cpp` file, anything else is skipped. -/
def listCxxTestSources (name : String) : Option String :=
  if name.endsWith ".h" then some (path_swapextension name ".h" ".cpp") else none

/-- `listRcSources` (gnu_cpp.c lines 359-370): a `.rc` source maps to its
basename plus `.res`, anything else is skipped. -/
def listRcSources (name : String) : Option String :=
  if path_getextension name == ".rc" then some (path_getbasename name ++ ".res")
  else none

/-- The entries of the OBJECTS list (gnu_cpp.c lines 171-177). -/
def objectsList (pkg : Package) : List String :=
  if pkg.kind == "cxxtestgen" then pkg.files.filterMap listCxxTestSources
  else pkg.files.filterMap listCppSources

/-- The OBJECTS section (gnu_cpp.c lines 171-177). -/
def objectsSection (pkg : Package) : String :=
  "OBJECTS := \\\n" ++
  (if pkg.kind == "cxxtestgen" then print_list pkg.files "\t" " \\\n" listCxxTestSources
   else print_list pkg.files "\t$(OBJDIR)/" " \\\n" listCppSources) ++ "\n"

/-- The entries of the RESOURCES list for a Windows context. -/
def rcEntriesList (files : List String) : List String := files.filterMap listRcSources

/-- The RESOURCES section (gnu_cpp.c lines 179-185): present only when the
platform is windows. -/
def resourcesSection (pkg : Package) (ctx : Ctx) : String :=
  if ctx.os == "windows" then
    "RESOURCES := \\\n" ++ print_list pkg.files "\t$(OBJDIR)/" " \\\n" listRcSources ++ "\n"
  else ""

/-- The portable mkdir helper block (gnu_cpp.c lines 187-199). -/
def cmdSection : String :=
  "CMD := $(subst \\,\\\\,$(ComSpec)$(COMSPEC))\n" ++
  "ifeq (,$(CMD))\n" ++
  "  CMD_MKBINDIR := mkdir -p $(BINDIR)\n" ++
  "  CMD_MKLIBDIR := mkdir -p $(LIBDIR)\n" ++
  "  CMD_MKOUTDIR := mkdir -p $(OUTDIR)\n" ++
  "  CMD_MKOBJDIR := mkdir -p $(OBJDIR)\n" ++
  "else\n" ++
  "  CMD_MKBINDIR := $(CMD) /c if not exist $(subst /,\\\\,$(BINDIR)) mkdir $(subst /,\\\\,$(BINDIR))\n" ++
  "  CMD_MKLIBDIR := $(CMD) /c if not exist $(subst /,\\\\,$(LIBDIR)) mkdir $(subst /,\\\\,$(LIBDIR))\n" ++
  "  CMD_MKOUTDIR := $(CMD) /c if not exist $(subst /,\\\\,$(OUTDIR)) mkdir $(subst /,\\\\,$(OUTDIR))\n" ++
  "  CMD_MKOBJDIR := $(CMD) /c if not exist $(subst /,\\\\,$(OBJDIR)) mkdir $(subst /,\\\\,$(OBJDIR))\n" ++
  "endif\n\n"

/-- The main build target (gnu_cpp.c lines 204-238). -/
def mainTargetSection (pkg : Package) (ctx : Ctx) : String :=
  let pfx := if ctx.g_verbose then "" else "@"
  (if ctx.os == "macosx" && pkg.kind == "winexe" then
     "all: $(OUTDIR)/$(MACAPP)/PkgInfo $(OUTDIR)/$(MACAPP)/Info.plist $(OUTDIR)/$(MACAPP)/MacOS/$(TARGET)\n\n" ++
     "$(OUTDIR)/$(MACAPP)/MacOS/$(TARGET)"
   else if pkg.kind == "cxxtestgen" then "all"
   else "$(OUTDIR)/$(TARGET)") ++
  ": $(OBJECTS) $(LDDEPS) $(RESOURCES)\n" ++
  (if pkg.kind == "cxxtestgen" then
     "\t@" ++ pkg.cxxtestpath ++ " --root " ++ pkg.cxxtest_rootoptions ++
       "  -o " ++ pkg.cxxtest_rootfile ++ "\n\n"
   else if pkg.kind == "run" then "\t" ++ pfx ++ "$(BLDCMD)\n\n"
   else
     (if !ctx.g_verbose then "\t@echo Linking " ++ pkg.pkgname ++ "\n" else "") ++
     "\t-" ++ pfx ++ "$(CMD_MKBINDIR)\n" ++
     "\t-" ++ pfx ++ "$(CMD_MKLIBDIR)\n" ++
     "\t-" ++ pfx ++ "$(CMD_MKOUTDIR)\n" ++
     (if ctx.os == "macosx" && pkg.kind == "winexe" then
        "\t-" ++ pfx ++ "if [ ! -d $(OUTDIR)/$(MACAPP)/MacOS ]; then mkdir -p $(OUTDIR)/$(MACAPP)/MacOS; fi\n"
      else "") ++
     "\t" ++ pfx ++ "$(BLDCMD)\n\n")

/-- The macOS bundle stub targets (gnu_cpp.c lines 253-257). -/
def macStubsSection (pkg : Package) (ctx : Ctx) : String :=
  if ctx.os == "macosx" && pkg.kind == "winexe" then
    "$(OUTDIR)/$(MACAPP)/PkgInfo:\n\n$(OUTDIR)/$(MACAPP)/Info.plist:\n\n"
  else ""

/-- The clean target (gnu_cpp.c lines 259-272). -/
def cleanSection (pkg : Package) (ctx : Ctx) : String :=
  let pfx := if ctx.g_verbose then "" else "@"
  "clean:\n\t@echo Cleaning " ++ pkg.pkgname ++ "\n" ++
  (if ctx.os == "macosx" && pkg.kind == "winexe" then
     "\t-" ++ pfx ++ "rm -rf $(OUTDIR)/$(TARGET).app $(OBJDIR)\n"
   else if pkg.kind == "cxxtestgen" then "\t-" ++ pfx ++ "rm -f $(OBJECTS)\n"
   else "\t-" ++ pfx ++ "rm -rf $(OUTDIR)/$(TARGET) $(OBJDIR)\n") ++ "\n"

/-- `listCppTargets` (gnu_cpp.c lines 377-469): the per-file compile rule
of one source file.  A compilable source gets a static rule whose recipe
depends on the toolchain; under the cxxtestgen kind a remaining file gets
the generator rule; anything else is skipped.  The `%%` text appearing in
some recipes is built by strcat in the C source and is kept verbatim. -/
def listCppTargets (pkg : Package) (ctx : Ctx) (name : String) : Option String :=
  let ext := path_getextension name
  let basename := path_getbasename name
  let at_ := if ctx.g_verbose then "" else "@"
  if is_cpp name then
    some (
      "$(OBJDIR)/" ++ basename ++ ".o: " ++ name ++ "\n" ++
      "\t-" ++ at_ ++ "$(CMD_MKOBJDIR)\n" ++
      (if !ctx.g_verbose then "\t@echo $(notdir $<)\n" else "") ++
      "\t" ++ at_ ++
      (if matchesOpt ctx.g_cc "dmc" then
        (if ext == ".c" then "dmc $(CFLAGS) -o $@ -c $<\n"
         else if !(ext == ".s") then "dmc -cpp -Ae -Ar -mn $(CXXFLAGS) -o $@ -c $<\n"
         else "")
       else
        (if ext == ".s" then "$(CC) -x assembler-with-cpp $(CPPFLAGS) -o $@ -c $<\n"
         else if ext == ".c" then "$(CC) $(CFLAGS) -MF $(OBJDIR)/$(<F:%%.c=%%.d) -o $@ -c $<\n"
         else if ext == ".asm" then
           let input_dir := path_translate (path_getdir name) ++ "/"
           let opts := if !(ctx.os == "windows") then "-dDONT_USE_UNDERLINE=1 " else ""
           "nasm " ++ opts ++ " -i" ++ input_dir ++ " -f elf -o $@ $<\n\t" ++ at_ ++
           "nasm " ++ opts ++ " -i" ++ input_dir ++ " -M -o $@ $< >$(OBJDIR)/$(<F:%%.asm=%.d)\n"
         else
           "$(CXX) $(CXXFLAGS) -MF $(OBJDIR)/" ++ basename ++ ".d -o $@ -c $<\n")))
  else if pkg.kind == "cxxtestgen" then
    let target_name := path_swapextension name ".h" ".cpp"
    some (target_name ++ ": " ++ name ++ "\n" ++
      (if ctx.g_verbose then "" else "\t@echo $(notdir $<)\n") ++
      "\t" ++ at_ ++ pkg.cxxtestpath ++ " --part " ++ pkg.cxxtest_options ++
      " -o " ++ target_name ++ " " ++ name ++ "\n")
  else none

/-- The per-file compile rules section (gnu_cpp.c line 279). -/
def cppRulesSection (pkg : Package) (ctx : Ctx) : String :=
  print_list pkg.files "" "\n" (listCppTargets pkg ctx)

/-- `listRcTargets` (gnu_cpp.c lines 476-492): the resource-compile rule of
one `.rc` source, invoking windres; anything else emits nothing. -/
def listRcTargets (ctx : Ctx) (name : String) : Option String :=
  let pfx := if ctx.g_verbose then "" else "@"
  if path_getextension name == ".rc" then
    some ("$(OBJDIR)/" ++ path_getbasename name ++ ".res: " ++ name ++ "\n" ++
      "\t-" ++ pfx ++ "$(CMD_MKOBJDIR)\n" ++
      (if !ctx.g_verbose then "\t@echo $(notdir $<)\n" else "") ++
      "\t" ++ pfx ++ "windres $< -O coff -o $@\n\n")
  else none

/-- The resource-rules section (gnu_cpp.c lines 281-282): present only when
the platform is windows. -/
def rcRulesSection (pkg : Package) (ctx : Ctx) : String :=
  if ctx.os == "windows" then print_list pkg.files "" "" (listRcTargets ctx) else ""

/-- The trailing dependency-include directive (gnu_cpp.c lines 284-286),
omitted for the cxxtestgen kind. -/
def includeSection (pkg : Package) : String :=
  if pkg.kind == "cxxtestgen" then "" else "-include $(OBJECTS:%.o=%.d)\n\n"

/-- Everything the emitter writes after the configuration blocks
(gnu_cpp.c lines 171-286). -/
def gnuTail (pkg : Package) (ctx : Ctx) : String :=
  objectsSection pkg ++
  resourcesSection pkg ctx ++
  cmdSection ++
  ".PHONY: clean\n\n" ++
  mainTargetSection pkg ctx ++
  macStubsSection pkg ctx ++
  cleanSection pkg ctx ++
  cppRulesSection pkg ctx ++
  rcRulesSection pkg ctx ++
  includeSection pkg

/-- The whole emission pass `gnu_cpp` (gnu_cpp.c lines 34-290) as a pure
function of the package, the platform context and the project graph. -/
def gnu_cpp (pkg : Package) (ctx : Ctx) (proj : Project) : String :=
  headerSection pkg ++
  defaultConfigSection pkg ++
  configBlocksText pkg ctx proj ++
  gnuTail pkg ctx

/-! Concrete fixtures used to evaluate the theorems on explicit inputs. -/

/-- A plain Debug configuration with no flags set. -/
def cfgBase : Config :=
  { name := "Debug", bindir := "bin", libdir := "lib", objdir := "obj/Debug",
    outdir := "out", defines := [], incpaths := [], flags := [],
    buildoptions := [], linkoptions := [], libpaths := [], target := "bin/app" }

/-- A configuration with both optimize-size and optimize-speed set. -/
def cfgBoth : Config := { cfgBase with flags := ["optimize-size", "optimize-speed"] }

/-- A configuration with only the plain optimize flag set. -/
def cfgO2 : Config := { cfgBase with flags := ["optimize"] }

/-- A second configuration, Release. -/
def cfgRelease : Config := { cfgBase with name := "Release" }

/-- A C++ static-library sibling. -/
def sibLibA : Sibling :=
  { name := "libA", lang := "c++", kind := "lib", target := "lib/libA.a" }

/-- A sibling of a language other than C and C++. -/
def sibCs : Sibling :=
  { name := "csharpLib", lang := "c#", kind := "dll", target := "bin/csharpLib.dll" }

/-- A cxxtestgen sibling. -/
def sibGen : Sibling :=
  { name := "genPkg", lang := "c++", kind := "cxxtestgen", target := "gen/root.cpp" }

/-- A project holding the three siblings above. -/
def projEx : Project := { packages := [sibLibA, sibCs, sibGen] }

/-- A C++ console executable with two configurations, mixed sources and
link references of every resolution class. -/
def basePkg : Package :=
  { pkgname := "app", lang := "c++", kind := "exe",
    configs := [cfgBase, cfgRelease], files := ["a.cpp", "b.c", "x.rc", "r.h"],
    links := ["libA", "csharpLib", "genPkg", "m"],
    cxxtestpath := "", cxxtest_rootoptions := "", cxxtest_rootfile := "",
    cxxtest_options := "" }

/-- The same package with a kind outside the recognized enumeration. -/
def pkgBogus : Package := { basePkg with kind := "bogus" }

/-- A non-windows, non-macosx context with the GCC toolchain implied. -/
def ctxLinux : Ctx := { os := "linux", g_cc := none, g_verbose := false }

/-- A windows context with the GCC toolchain named. -/
def ctxWin : Ctx := { os := "windows", g_cc := some "gcc", g_verbose := false }

/-! Helper lemmas shared by the claim proofs. -/

theorem length_filterMap_eq_countP {α β : Type} (f : α → Option β) (l : List α) :
    (l.filterMap f).length = l.countP (fun a => (f a).isSome) := by
  induction l with
  | nil => rfl
  | cons x xs ih =>
    cases h : f x <;> simp [List.filterMap_cons, h, List.countP_cons, ih]

/-! The claims. -/

/-- C1, counterexample: in a configuration with both optimize-size and
optimize-speed set, the size token `-Os` and the speed token `-O3` are both
emitted into the compile-flag block, so the three optimization tokens are
not mutually exclusive as claimed. -/
theorem C1_counterexample :
    "-Os" ∈ optTokens cfgBoth ∧ "-O3" ∈ optTokens cfgBoth := by decide

/-- C1, amended: `-Os` is emitted exactly when optimize-size is set, `-O3`
exactly when optimize-speed is set, and the default token `-O2` exactly
when plain optimize is set and neither optimize-size nor optimize-speed is;
hence `-O2` never coexists with `-Os` or `-O3` (size and speed take
precedence over plain optimize), but `-Os` and `-O3` can both appear. -/
theorem C1_optimizationTokens (cfg : Config) :
    ("-Os" ∈ optTokens cfg ↔ prj_has_flag cfg "optimize-size" = true) ∧
    ("-O3" ∈ optTokens cfg ↔ prj_has_flag cfg "optimize-speed" = true) ∧
    ("-O2" ∈ optTokens cfg ↔ (prj_has_flag cfg "optimize" = true ∧
       prj_has_flag cfg "optimize-size" = false ∧
       prj_has_flag cfg "optimize-speed" = false)) ∧
    ("-O2" ∈ optTokens cfg → "-Os" ∉ optTokens cfg ∧ "-O3" ∉ optTokens cfg) := by
  unfold optTokens
  cases hs : prj_has_flag cfg "optimize-size" <;>
    cases hp : prj_has_flag cfg "optimize-speed" <;>
      cases ho : prj_has_flag cfg "optimize" <;>
        simp [hs, hp, ho]

/-- C1, witness: the amended theorem evaluated on a configuration with only
the plain optimize flag set. -/
theorem C1_optimizationTokens_witness :
    "-O2" ∈ optTokens cfgO2 ∧ "-Os" ∉ optTokens cfgO2 :=
  ⟨(C1_optimizationTokens cfgO2).2.2.1.mpr (by decide),
   ((C1_optimizationTokens cfgO2).2.2.2
     ((C1_optimizationTokens cfgO2).2.2.1.mpr (by decide))).1⟩

/-- C2, counterexample: for a package of the unrecognized kind "bogus" the
per-configuration block still assigns a build command - the default branch
emits the C++ link-driver invocation - contradicting the claim that no
build command is emitted. -/
theorem C2_counterexample :
    bldcmd pkgBogus =
      "$(CXX) -o $(OUTDIR)/$(TARGET) $(OBJECTS) $(LDFLAGS) $(RESOURCES)" ∧
    pkgBogus.kind ∉ ["exe", "winexe", "dll", "lib", "cxxtestgen", "run"] := by
  exact ⟨rfl, by decide⟩

/-- C2, amended: for any package whose kind is none of lib, cxxtestgen and
run - recognized or not - the per-configuration block emits the C or C++
link-driver build command chosen by the package language; an unrecognized
kind is not specially handled but falls into the default branch. -/
theorem C2_unrecognizedKind (pkg : Package)
    (h1 : pkg.kind ≠ "lib") (h2 : pkg.kind ≠ "cxxtestgen") (h3 : pkg.kind ≠ "run") :
    bldcmd pkg =
      "$(" ++ (if pkg.lang == "c" then "CC" else "CXX") ++
        ") -o $(OUTDIR)/$(TARGET) $(OBJECTS) $(LDFLAGS) $(RESOURCES)" := by
  unfold bldcmd
  simp [beq_iff_eq, h1, h2, h3]

/-- C2, witness: the amended theorem evaluated on the bogus-kind package. -/
theorem C2_unrecognizedKind_witness :
    bldcmd pkgBogus =
      "$(" ++ (if pkgBogus.lang == "c" then "CC" else "CXX") ++
        ") -o $(OUTDIR)/$(TARGET) $(OBJECTS) $(LDFLAGS) $(RESOURCES)" :=
  C2_unrecognizedKind pkgBogus (by decide) (by decide) (by decide)

/-- C3: resolution of a link-reference name: a C or C++ non-cxxtestgen
sibling yields its target path both as the link token and as the
link-dependency entry; a cxxtestgen sibling contributes to neither; an
unknown name yields the external-library token `-l` plus the name and
never enters the dependency resolution; and every resolved dependency of a
referenced name is a member of the emitted link-dependency list. -/
theorem C3_linkResolution (proj : Project) (name : String) :
    (∀ s, prj_find_package proj name = some s →
      ((s.lang = "c++" ∨ s.lang = "c") → s.kind ≠ "cxxtestgen" →
         filterLinks proj name = some s.target ∧
         listLinkerDeps proj name = some s.target) ∧
      (s.kind = "cxxtestgen" →
         filterLinks proj name = none ∧ listLinkerDeps proj name = none)) ∧
    (prj_find_package proj name = none →
       filterLinks proj name = some ("-l" ++ name) ∧
       listLinkerDeps proj name = none) ∧
    (∀ links : List String, name ∈ links → ∀ t, listLinkerDeps proj name = some t →
       t ∈ links.filterMap (listLinkerDeps proj)) := by
  refine ⟨?_, ?_, ?_⟩
  · intro s hs
    constructor
    · intro hl hk
      rcases hl with h | h <;>
        simp [filterLinks, listLinkerDeps, hs, beq_iff_eq, h, hk]
    · intro hk
      simp [filterLinks, listLinkerDeps, hs, beq_iff_eq, hk]
  · intro h
    simp [filterLinks, listLinkerDeps, h]
  · intro links hmem t ht
    exact List.mem_filterMap.mpr ⟨name, hmem, ht⟩

/-- C3, witness: resolution evaluated on the fixture project at a C++
library sibling, a cxxtestgen sibling and an unknown name. -/
theorem C3_linkResolution_witness :
    (filterLinks projEx "libA" = some "lib/libA.a" ∧
       listLinkerDeps projEx "libA" = some "lib/libA.a") ∧
    (filterLinks projEx "genPkg" = none ∧ listLinkerDeps projEx "genPkg" = none) ∧
    (filterLinks projEx "m" = some "-lm" ∧ listLinkerDeps projEx "m" = none) :=
  ⟨((C3_linkResolution projEx "libA").1 sibLibA rfl).1 (Or.inl rfl) (by decide),
   ⟨((C3_linkResolution projEx "genPkg").1 sibGen rfl).2 rfl,
    (C3_linkResolution projEx "m").2.1 rfl⟩⟩

/-- C4: the emitter produces exactly one ifeq-guarded block per declared
configuration, in declaration order, and each block opens with a guard
comparing $(CONFIG) against exactly that configuration's name, followed by
that configuration's block body. -/
theorem C4_configBlocks (pkg : Package) (ctx : Ctx) (proj : Project) :
    (configBlocksList pkg ctx proj).length = pkg.configs.length ∧
    ∀ i, i < pkg.configs.length →
      (configBlocksList pkg ctx proj).getD i "" =
        "ifeq ($(CONFIG)," ++ (pkg.configs.getD i cfgBase).name ++ ")\n" ++
        configBlockBody pkg ctx proj (pkg.configs.getD i cfgBase) := by
  constructor
  · simp [configBlocksList]
  · intro i hi
    simp [configBlocksList, configBlock, List.getD_eq_getElem?_getD,
      List.getElem?_map, List.getElem?_eq_getElem, hi]

/-- C4, witness: the guarded-blocks theorem evaluated on the fixture
package at index 0. -/
theorem C4_configBlocks_witness :
    (configBlocksList basePkg ctxLinux projEx).getD 0 "" =
      "ifeq ($(CONFIG)," ++ (basePkg.configs.getD 0 cfgBase).name ++ ")\n" ++
      configBlockBody basePkg ctxLinux projEx (basePkg.configs.getD 0 cfgBase) :=
  (C4_configBlocks basePkg ctxLinux projEx).2 0 (by decide)

/-- C5: emission is deterministic - the embedded gnu_cpp is a pure
function of the package, the platform context and the project graph, so
two emission passes over unchanged inputs produce byte-identical text. -/
theorem C5_deterministic (pkg : Package) (ctx : Ctx) (proj : Project) :
    gnu_cpp pkg ctx proj = gnu_cpp pkg ctx proj := rfl

/-- C6: on a windows context the RESOURCES list holds exactly one entry -
basename plus .res - per `.rc` source, and exactly one windres rule is
produced per `.rc` source; on a non-windows context neither the resource
list nor the resource rules are emitted, whatever sources are present. -/
theorem C6_resources (pkg : Package) (ctx : Ctx) :
    (ctx.os = "windows" →
       resourcesSection pkg ctx =
         "RESOURCES := \\\n" ++
           print_list pkg.files "\t$(OBJDIR)/" " \\\n" listRcSources ++ "\n" ∧
       (rcEntriesList pkg.files).length =
         pkg.files.countP (fun f => path_getextension f == ".rc") ∧
       (∀ f ∈ pkg.files, path_getextension f = ".rc" →
          (path_getbasename f ++ ".res") ∈ rcEntriesList pkg.files) ∧
       (pkg.files.filterMap (listRcTargets ctx)).length =
         pkg.files.countP (fun f => path_getextension f == ".rc") ∧
       (∀ f, path_getextension f = ".rc" →
          ∃ pre, listRcTargets ctx f = some (pre ++ "windres $< -O coff -o $@\n\n"))) ∧
    (ctx.os ≠ "windows" →
       resourcesSection pkg ctx = "" ∧ rcRulesSection pkg ctx = "") := by
  constructor
  · intro hw
    refine ⟨?_, ?_, ?_, ?_, ?_⟩
    · simp [resourcesSection, hw]
    · rw [rcEntriesList, length_filterMap_eq_countP]
      refine List.countP_congr ?_
      intro f _
      cases h : path_getextension f == ".rc" <;> simp [listRcSources, h]
    · intro f hmem hext
      exact List.mem_filterMap.mpr ⟨f, hmem, by simp [listRcSources, hext]⟩
    · rw [length_filterMap_eq_countP]
      refine List.countP_congr ?_
      intro f _
      cases h : path_getextension f == ".rc" <;> simp [listRcTargets, h]
    · intro f hext
      refine ⟨"$(OBJDIR)/" ++ path_getbasename f ++ ".res: " ++ f ++ "\n" ++
        "\t-" ++ (if ctx.g_verbose then "" else "@") ++ "$(CMD_MKOBJDIR)\n" ++
        (if !ctx.g_verbose then "\t@echo $(notdir $<)\n" else "") ++
        "\t" ++ (if ctx.g_verbose then "" else "@"), ?_⟩
      simp [listRcTargets, hext, String.append_assoc]
  · intro hn
    constructor
    · simp [resourcesSection, beq_iff_eq, hn]
    · simp [rcRulesSection, beq_iff_eq, hn]

/-- C6, witness: the resource theorem evaluated on the fixture package,
under a windows context and under a linux context. -/
theorem C6_resources_witness :
    (rcEntriesList basePkg.files).length =
      basePkg.files.countP (fun f => path_getextension f == ".rc") ∧
    resourcesSection basePkg ctxLinux = "" ∧
    rcRulesSection basePkg ctxLinux = "" :=
  ⟨((C6_resources basePkg ctxWin).1 rfl).2.1,
   (C6_resources basePkg ctxLinux).2 (by decide)⟩

/-- C7: for a package of any kind other than cxxtestgen, the OBJECTS list
has exactly one entry per source file whose extension maps to a compilable
type (C, C++, assembly, netwide-assembler); a file whose extension does
not contributes no entry. -/
theorem C7_objectCount (pkg : Package) (h : pkg.kind ≠ "cxxtestgen") :
    (objectsList pkg).length = pkg.files.countP (fun f => is_cpp f) ∧
    ∀ f, is_cpp f = false → listCppSources f = none := by
  constructor
  · rw [objectsList, if_neg (by simp [beq_iff_eq, h]), length_filterMap_eq_countP]
    refine List.countP_congr ?_
    intro f _
    cases hc : is_cpp f <;> simp [listCppSources, hc]
  · intro f hf
    simp [listCppSources, hf]

/-- C7, witness: the object-count theorem evaluated on the fixture package
(two compilable sources among four files). -/
theorem C7_objectCount_witness :
    (objectsList basePkg).length = basePkg.files.countP (fun f => is_cpp f) :=
  (C7_objectCount basePkg (by decide)).1

/-- C8: the main build command per kind: a static library archives the
objects then indexes the archive; cxxtestgen gets the no-op placeholder;
a run target iterates the resolved link-dependency list announcing and
executing each entry; and exe, winexe and dll invoke the C or C++ link
driver chosen by the package language, producing the target from objects,
link flags and resources. -/
theorem C8_buildCommand (pkg : Package) :
    (pkg.kind = "lib" →
       bldcmd pkg =
         "ar -cr $(OUTDIR)/$(TARGET) $(OBJECTS); ranlib $(OUTDIR)/$(TARGET)") ∧
    (pkg.kind = "cxxtestgen" → bldcmd pkg = "true") ∧
    (pkg.kind = "run" →
       bldcmd pkg = "for a in $(LDDEPS); do echo Running $$a; $$a; done") ∧
    ((pkg.kind = "exe" ∨ pkg.kind = "winexe" ∨ pkg.kind = "dll") →
       bldcmd pkg =
         "$(" ++ (if pkg.lang == "c" then "CC" else "CXX") ++
           ") -o $(OUTDIR)/$(TARGET) $(OBJECTS) $(LDFLAGS) $(RESOURCES)") := by
  refine ⟨?_, ?_, ?_, ?_⟩
  · intro hk; simp [bldcmd, beq_iff_eq, hk]
  · intro hk; simp [bldcmd, beq_iff_eq, hk]
  · intro hk; simp [bldcmd, beq_iff_eq, hk]
  · intro hk
    rcases hk with h | h | h <;> simp [bldcmd, beq_iff_eq, h]

/-- C8, witness: the build command evaluated on the fixture C++
executable. -/
theorem C8_buildCommand_witness :
    bldcmd basePkg =
      "$(" ++ (if basePkg.lang == "c" then "CC" else "CXX") ++
        ") -o $(OUTDIR)/$(TARGET) $(OBJECTS) $(LDFLAGS) $(RESOURCES)" :=
  (C8_buildCommand basePkg).2.2.2 (Or.inl rfl)

/-- C9: when at least one configuration is declared, the emitter writes an
ifndef-guarded default assignment setting CONFIG to the first declared
configuration's name, and in the whole emitted text this default section
comes right after the header, before every guarded configuration block. -/
theorem C9_defaultConfig (pkg : Package) (ctx : Ctx) (proj : Project)
    (c : Config) (rest : List Config) (h : pkg.configs = c :: rest) :
    defaultConfigSection pkg =
      "ifndef CONFIG\n  CONFIG=" ++ c.name ++ "\nendif\n\n" ∧
    gnu_cpp pkg ctx proj =
      headerSection pkg ++ defaultConfigSection pkg ++
      configBlocksText pkg ctx proj ++ gnuTail pkg ctx := by
  refine ⟨?_, rfl⟩
  simp [defaultConfigSection, h]

/-- C9, witness: the default-configuration theorem evaluated on the
fixture package, whose first declared configuration is Debug. -/
theorem C9_defaultConfig_witness :
    defaultConfigSection basePkg =
      "ifndef CONFIG\n  CONFIG=" ++ cfgBase.name ++ "\nendif\n\n" :=
  (C9_defaultConfig basePkg ctxLinux projEx cfgBase [cfgRelease] rfl).1

/-- C10: a link reference naming a non-cxxtestgen sibling always resolves
to the sibling's target in the link-dependency resolution, whatever the
sibling's language, while the raw link token is produced only for a C or
C++ sibling; a sibling of any other language thus enters the dependency
list but contributes no link token. -/
theorem C10_nonCppSibling (proj : Project) (name : String) (s : Sibling)
    (hf : prj_find_package proj name = some s) (hk : s.kind ≠ "cxxtestgen") :
    listLinkerDeps proj name = some s.target ∧
    (s.lang ≠ "c++" → s.lang ≠ "c" → filterLinks proj name = none) ∧
    ((s.lang = "c++" ∨ s.lang = "c") → filterLinks proj name = some s.target) := by
  refine ⟨?_, ?_, ?_⟩
  · simp [listLinkerDeps, hf, beq_iff_eq, hk]
  · intro h1 h2
    simp [filterLinks, hf, beq_iff_eq, hk, h1, h2]
  · intro hl
    rcases hl with h | h <;> simp [filterLinks, hf, beq_iff_eq, hk, h]

/-- C10, witness: the fixture sibling of language c# enters the dependency
resolution with its target but produces no link token. -/
theorem C10_nonCppSibling_witness :
    listLinkerDeps projEx "csharpLib" = some "bin/csharpLib.dll" ∧
    filterLinks projEx "csharpLib" = none :=
  ⟨(C10_nonCppSibling projEx "csharpLib" sibCs rfl (by decide)).1,
   (C10_nonCppSibling projEx "csharpLib" sibCs rfl (by decide)).2.1
     (by decide) (by decide)⟩

end Premake
